import Mathlib

/-!
# Verification of the axios service layer (`axiosService.ts`)

Shallow embedding of the HTTP client access layer: the shared classification
and retry logic of `BaseAxiosService`, the authenticated client's token-refresh
protocol (`CreateAxiosService.onAuthReject`), its interceptor management, and
the administrative client's 401-redirect handling (`AdminCreateAxiosService`).

Conventions of the embedding:
* JavaScript `undefined` becomes `Option.none`; JS truthiness of a numeric
  status is spelled out (`0` is falsy, any other number truthy).
* Asynchronous control flow is modelled as a state machine whose atomic steps
  are the synchronous runs between suspension points (awaits / timer waits),
  which is faithful under the single-threaded event-loop execution model.
* Side effects (page reloads, token clearing, timers armed/cleared, emitted
  notifications) are recorded as counters and lists in the state.
-/

/-- `statusCode.SERVER_ERROR` of `BaseAxiosService`. -/
def SERVER_ERROR : Nat := 500

/-- `statusCode.UN_AUTHORIZED` of `BaseAxiosService`. -/
def UN_AUTHORIZED : Nat := 401

/-- `DEFAULT_RETRY_COUNT` of `BaseAxiosService`. -/
def DEFAULT_RETRY_COUNT : Nat := 3

/-- `DEFAULT_RETRY_DELAY` of `BaseAxiosService`, in milliseconds. -/
def DEFAULT_RETRY_DELAY : Nat := 10 * 1000

/-- A request config (`AxiosRequestConfig`): the part the claims observe is the
URL. -/
structure RequestConfig where
  url : Option String
  deriving DecidableEq, Repr

/-- A response as far as the error paths observe it: its HTTP status and the
originating request config (absent on some synthetic errors). -/
structure AxiosResponse where
  status : Nat
  config : Option RequestConfig
  deriving DecidableEq, Repr

/-- An `AxiosError`: config and response may be absent (network failure). -/
structure AxiosError where
  config : Option RequestConfig
  response : Option AxiosResponse
  message : String
  deriving DecidableEq, Repr

/-- `error.status` mirrors `error.response?.status` in axios. -/
def AxiosError.status (error : AxiosError) : Option Nat :=
  error.response.map (fun r => r.status)

/-- `BaseAxiosService.isErrorFromServer`: undefined status, or status ≥ 500. -/
def isErrorFromServer (statusCode : Option Nat) : Bool :=
  match statusCode with
  | none => true
  | some s => decide (SERVER_ERROR ≤ s)

/-- `BaseAxiosService.isUnexpectedError`: undefined status (the `isUndefined`
guard returns `true`), or status < 500 and status ≠ 401. -/
def isUnexpectedError (statusCode : Option Nat) : Bool :=
  match statusCode with
  | none => true
  | some s => decide (s < SERVER_ERROR) && decide (s ≠ UN_AUTHORIZED)

/-- `BaseAxiosService.isErrorFromRequest`:
`!error.config || !error.response || !error.response.status`
(a numeric status of `0` is falsy in JS). -/
def isErrorFromRequest (error : AxiosError) : Bool :=
  match error.config, error.response with
  | none, _ => true
  | some _, none => true
  | some _, some r => decide (r.status = 0)

/-- The error classes of the design's taxonomy (status-based part). -/
inductive ErrorClass where
  | serverOriginated
  | unexpected
  | unauthorized
  deriving DecidableEq, Repr

/-- The effective status classification, in the check order both response
handlers use (`onAuthReject` lines 138–146 and the admin handler lines
360–368): the server check runs before the unexpected check, and what remains
is the 401 branch. -/
def classifyStatus (statusCode : Option Nat) : ErrorClass :=
  if isErrorFromServer statusCode then ErrorClass.serverOriginated
  else if isUnexpectedError statusCode then ErrorClass.unexpected
  else ErrorClass.unauthorized

/-! ## The retry primitive (`BaseAxiosService.retryRequest`) -/

/-- How a `retryRequest` promise chain settles. -/
inductive RetryResult where
  /-- a resend succeeded and the chain resolves with that response -/
  | resolved
  /-- rejected with `Error('Maximum Retry')` after the budget ran out -/
  | maxRetry
  /-- rejected with `Error('No response config')`: nothing to resend -/
  | noConfig
  deriving DecidableEq, Repr

/-- Observable outcome of a retry chain: how many resend attempts were made,
how many fixed `DEFAULT_RETRY_DELAY` waits elapsed, and how it settled. -/
structure RetryOutcome where
  attempts : Nat
  delays : Nat
  result : RetryResult
  deriving DecidableEq, Repr

/-- Whether `response && response.config` is truthy for the retried context. -/
def hasResponseConfig (response : Option AxiosResponse) : Bool :=
  match response with
  | none => false
  | some r => r.config.isSome

/-- Recursion of `retryRequest`: `i` indexes the next resend attempt and
`send i = true` means the `i`-th resend of `response.config` succeeds.
Each level with budget left first waits one fixed delay (the `setTimeout`),
then checks `!response || !response.config`, then resends; a renewed failure
recurses with the budget decremented.  With the budget exhausted it rejects
synchronously (no further delay). -/
def retryRequestAux (hasConfig : Bool) (send : Nat → Bool) : Nat → Nat → RetryOutcome
  | _, 0 => { attempts := 0, delays := 0, result := RetryResult.maxRetry }
  | i, k + 1 =>
    if hasConfig then
      if send i then { attempts := 1, delays := 1, result := RetryResult.resolved }
      else
        let r := retryRequestAux hasConfig send (i + 1) k
        { attempts := r.attempts + 1, delays := r.delays + 1, result := r.result }
    else { attempts := 0, delays := 1, result := RetryResult.noConfig }

/-- `retryRequest(response)` with the default budget: every fresh call starts
at `DEFAULT_RETRY_COUNT` (the source's `retryCount = 3` reset on exhaustion
reassigns a local parameter, so each new chain starts at the default anyway). -/
def retryRequest (response : Option AxiosResponse) (send : Nat → Bool) : RetryOutcome :=
  retryRequestAux (hasResponseConfig response) send 0 DEFAULT_RETRY_COUNT

/-! ## The unauthenticated (basic) client response handler -/

/-- What `CreateAxiosService.onRejected` does with an error. -/
inductive BasicAction where
  /-- hands `error.response` to `retryRequest` -/
  | retry (response : Option AxiosResponse)
  /-- `Promise.reject(error)` with the original error -/
  | rejectOriginal
  deriving DecidableEq, Repr

/-- `CreateAxiosService.onRejected`: server-originated errors are retried,
everything else is rejected unchanged. -/
def onRejected (error : AxiosError) : BasicAction :=
  if isErrorFromServer error.status then BasicAction.retry error.response
  else BasicAction.rejectOriginal

/-! ## Claims C2, C3, C9 -/

/-- C2 (counterexample): at the undefined status, `isUnexpectedError` is `true`
even though no defined status below 500 and different from 401 is present, and
the undefined status satisfies both `isErrorFromServer` and
`isUnexpectedError`, so the raw predicates overlap there and the claimed
"if and only if" characterisation of `isUnexpected` fails. -/
theorem classification_overlap_at_undefined :
    isErrorFromServer none = true ∧ isUnexpectedError none = true ∧
      ¬ ∃ n : Nat, (none : Option Nat) = some n ∧ n < 500 ∧ n ≠ 401 := by
  refine ⟨rfl, rfl, ?_⟩
  rintro ⟨n, h, -⟩
  cases h

/-- C2 (amended): for every *defined* status `n`, `isUnexpectedError (some n)`
holds exactly when `n < 500` and `n ≠ 401`; the effective classification (the
handlers check `isErrorFromServer` first) assigns every status exactly one
class — `some n` with `500 ≤ n` is server-originated, `401` is unauthorized,
any other `n < 500` is unexpected, and the undefined status is
server-originated.  The raw predicates overlap only at the undefined status,
where the check order makes the server classification win. -/
theorem classification_partition :
    (∀ n : Nat, isUnexpectedError (some n) = decide (n < 500 ∧ n ≠ 401)) ∧
    (∀ n : Nat, classifyStatus (some n) =
      if 500 ≤ n then ErrorClass.serverOriginated
      else if n = 401 then ErrorClass.unauthorized
      else ErrorClass.unexpected) ∧
    classifyStatus none = ErrorClass.serverOriginated := by
  refine ⟨?_, ?_, rfl⟩
  · intro n
    simp [isUnexpectedError, SERVER_ERROR, UN_AUTHORIZED, Bool.decide_and]
  · intro n
    by_cases h5 : 500 ≤ n
    · simp [classifyStatus, isErrorFromServer, SERVER_ERROR, h5]
    · by_cases h4 : n = 401
      · subst h4
        simp [classifyStatus, isErrorFromServer, isUnexpectedError,
          SERVER_ERROR, UN_AUTHORIZED]
      · have hlt : n < 500 := by omega
        simp [classifyStatus, isErrorFromServer, isUnexpectedError,
          SERVER_ERROR, UN_AUTHORIZED, h5, h4, hlt]

/-- C3: with the default budget of 3 and a response that carries a config,
(a) if every resend fails, the chain performs exactly 3 resend attempts, each
preceded by one fixed delay, and then rejects with the maximum-retry error
(with no fourth delay); (b) if the second resend succeeds, the chain resolves
after exactly 2 attempts and 2 delays — no third attempt occurs.  The
embedding `retryRequest` starts every fresh chain at `DEFAULT_RETRY_COUNT`,
which is the "counter is reset for future calls" behaviour. -/
theorem retry_budget (resp : AxiosResponse) (send : Nat → Bool)
    (hc : resp.config.isSome = true) :
    DEFAULT_RETRY_COUNT = 3 ∧
    ((∀ i, i < 3 → send i = false) →
      retryRequest (some resp) send =
        { attempts := 3, delays := 3, result := RetryResult.maxRetry }) ∧
    (send 0 = false → send 1 = true →
      retryRequest (some resp) send =
        { attempts := 2, delays := 2, result := RetryResult.resolved }) := by
  refine ⟨rfl, ?_, ?_⟩
  · intro hfail
    have h0 := hfail 0 (by omega)
    have h1 := hfail 1 (by omega)
    have h2 := hfail 2 (by omega)
    simp [retryRequest, DEFAULT_RETRY_COUNT, retryRequestAux,
      hasResponseConfig, hc, h0, h1, h2]
  · intro h0 h1
    simp [retryRequest, DEFAULT_RETRY_COUNT, retryRequestAux,
      hasResponseConfig, hc, h0, h1]

/-- A sample 500 response carrying its request config, for witnesses. -/
def sampleServerResponse : AxiosResponse :=
  { status := 500, config := some { url := some "/orders" } }

/-- Witness for `retry_budget` at a concrete response and concrete send
oracles. -/
theorem retry_budget_witness :
    retryRequest (some sampleServerResponse) (fun _ => false) =
      { attempts := 3, delays := 3, result := RetryResult.maxRetry } ∧
    retryRequest (some sampleServerResponse) (fun i => decide (i = 1)) =
      { attempts := 2, delays := 2, result := RetryResult.resolved } := by
  constructor
  · exact (retry_budget sampleServerResponse (fun _ => false) rfl).2.1
      (fun i _ => rfl)
  · exact (retry_budget sampleServerResponse (fun i => decide (i = 1)) rfl).2.2
      rfl rfl

/-- C9: on the basic client, an error with no response at all (undefined
status) is classified server-originated and handed to `retryRequest`, which
performs exactly one fixed delay (the first `setTimeout`), makes zero resend
attempts, and rejects with the `No response config` error — the retry budget
is never consumed. -/
theorem basic_no_response_short_circuit (error : AxiosError) (send : Nat → Bool)
    (h : error.response = none) :
    onRejected error = BasicAction.retry none ∧
    retryRequest error.response send =
      { attempts := 0, delays := 1, result := RetryResult.noConfig } := by
  constructor
  · simp [onRejected, AxiosError.status, isErrorFromServer, h]
  · simp [retryRequest, DEFAULT_RETRY_COUNT, retryRequestAux,
      hasResponseConfig, h]

/-- A sample network-failure error: a config but no response at all. -/
def sampleNetworkError : AxiosError :=
  { config := some { url := some "/orders" }, response := none,
    message := "Network Error" }

/-- Witness for `basic_no_response_short_circuit` at a concrete network-failure
error. -/
theorem basic_no_response_short_circuit_witness :
    onRejected sampleNetworkError = BasicAction.retry none ∧
    retryRequest sampleNetworkError.response (fun _ => true) =
      { attempts := 0, delays := 1, result := RetryResult.noConfig } :=
  basic_no_response_short_circuit sampleNetworkError (fun _ => true) rfl

/-! ## The authenticated client's refresh protocol (`onAuthReject`, 401 branch)

`onAuthReject` is an `async` arrow function whose whole 401 branch sits inside
`try { ... } finally { this.isApiRequestAuthLocked = false }`.  JavaScript
runs the `finally` block whenever control leaves the `try` — including a
`return` from the locked branch — so the atomic steps below reproduce exactly
when the lock flag is written.  The only suspension point inside the branch is
the `await axios({...})` refresh call, so each step is one synchronous run of
the handler on the event loop. -/

/-- The token pair returned by the refresh endpoint. -/
structure TokenPair where
  accessToken : String
  refreshToken : String
  deriving DecidableEq, Repr

/-- How the awaited refresh round trip comes back to the suspended handler:
the `await` (or any later statement of the `try` block) threw, or it returned
a response whose `data` is falsy, or it returned a usable token pair. -/
inductive RefreshOutcome where
  | threw
  | okNoData
  | okData (tokens : TokenPair)
  deriving DecidableEq, Repr

/-- What a completed `onAuthReject` invocation hands back for a 401. -/
inductive AuthHandlerReturn where
  /-- the locked branch returns the pending promise of the queued item -/
  | queuedPromise
  /-- the async function falls off the end (or returns after the catch),
  so its promise *resolves* with `undefined` — it is not a rejection -/
  | resolveUndefined
  /-- the success path returns `this.axiosInstance.request(config)`,
  replaying the originating request with the new token -/
  | replayOriginal (config : RequestConfig)
  deriving DecidableEq, Repr

/-- State of one authenticated client instance, with effect counters:
`refreshCalls` counts refresh requests issued, `refreshInFlight` those whose
round trip has not yet completed, `reloads` the `window.location.reload()`
calls and `tokenClears` the `removeTokenFromCookie()` calls.  `pendingConfig`
is the refresh-initiating invocation's local `config` variable (meaningful
while at most one refresh is outstanding), `replayed` the queued configs that
have been resent. -/
structure AuthState where
  isApiRequestAuthLocked : Bool
  apiRequestMicrotaskQueueItem : List RequestConfig
  pendingConfig : Option RequestConfig
  refreshCalls : Nat
  refreshInFlight : Nat
  reloads : Nat
  tokenClears : Nat
  storedTokens : Option TokenPair
  replayed : List RequestConfig
  rearms : Nat
  deriving DecidableEq, Repr

/-- Fresh client instance: lock down, queue empty, no effects yet. -/
def initialAuthState : AuthState :=
  { isApiRequestAuthLocked := false, apiRequestMicrotaskQueueItem := [],
    pendingConfig := none, refreshCalls := 0, refreshInFlight := 0,
    reloads := 0, tokenClears := 0, storedTokens := none, replayed := [],
    rearms := 0 }

/-- The event-loop level events of the 401 branch: a 401 error for `config`
reaches the handler (with the refresh credential the handler would read from
storage), or the outstanding refresh round trip returns to the suspended
invocation. -/
inductive AuthEvent where
  | arrive401 (config : RequestConfig) (refreshCookie : Option String)
  | refreshReturns (outcome : RefreshOutcome)
  deriving DecidableEq, Repr

/-- One atomic step of the 401 branch of `onAuthReject` (lines 146–197).

* `arrive401`, lock held: the handler pushes `{config, resolve, reject}` onto
  the queue and returns the new pending promise from inside the `try`; the
  `finally` therefore sets `isApiRequestAuthLocked = false` on the way out.
* `arrive401`, lock free: the handler sets the lock, reads the refresh
  credential, and if present issues the refresh request and suspends at the
  `await` (the `finally` has not run yet).  If the credential is absent it
  throws `Token Reissue Error`, the `catch` clears the tokens and reloads the
  page, the `finally` releases the lock, and the function ends resolving
  `undefined`.
* `refreshReturns`: the suspended invocation resumes.  On a throw the `catch`
  clears tokens and reloads once, on falsy data the `try` is simply exited; on
  a token pair the tokens are stored, every queued item is replayed in
  insertion order and the queue emptied, the bearer interceptor is re-armed,
  and the originating request is replayed.  In every case the `finally`
  releases the lock. -/
def authStep (s : AuthState) : AuthEvent → AuthState × Option AuthHandlerReturn
  | AuthEvent.arrive401 config refreshCookie =>
    if s.isApiRequestAuthLocked then
      ({ s with
           apiRequestMicrotaskQueueItem := s.apiRequestMicrotaskQueueItem ++ [config]
           isApiRequestAuthLocked := false },
        some AuthHandlerReturn.queuedPromise)
    else
      match refreshCookie with
      | some _ =>
        ({ s with
             isApiRequestAuthLocked := true
             pendingConfig := some config
             refreshCalls := s.refreshCalls + 1
             refreshInFlight := s.refreshInFlight + 1 },
          none)
      | none =>
        ({ s with
             tokenClears := s.tokenClears + 1
             reloads := s.reloads + 1
             isApiRequestAuthLocked := false },
          some AuthHandlerReturn.resolveUndefined)
  | AuthEvent.refreshReturns outcome =>
    match outcome with
    | RefreshOutcome.threw =>
      ({ s with
           tokenClears := s.tokenClears + 1
           reloads := s.reloads + 1
           refreshInFlight := s.refreshInFlight - 1
           pendingConfig := none
           isApiRequestAuthLocked := false },
        some AuthHandlerReturn.resolveUndefined)
    | RefreshOutcome.okNoData =>
      ({ s with
           refreshInFlight := s.refreshInFlight - 1
           pendingConfig := none
           isApiRequestAuthLocked := false },
        some AuthHandlerReturn.resolveUndefined)
    | RefreshOutcome.okData tokens =>
      ({ s with
           storedTokens := some tokens
           replayed := s.replayed ++ s.apiRequestMicrotaskQueueItem
           apiRequestMicrotaskQueueItem := []
           rearms := s.rearms + 1
           refreshInFlight := s.refreshInFlight - 1
           pendingConfig := none
           isApiRequestAuthLocked := false },
        match s.pendingConfig with
        | some c => some (AuthHandlerReturn.replayOriginal c)
        | none => some AuthHandlerReturn.resolveUndefined)

/-- Run a sequence of events from a fresh client instance. -/
def authRun (events : List AuthEvent) : AuthState :=
  events.foldl (fun s e => (authStep s e).1) initialAuthState

/-- The refresh credential the source reads (a hardcoded truthy placeholder
for the cookie value). -/
def refreshTokenCookie : String := "REFRESH_TOKEN"

/-! ## Claims C1, C6 -/

/-- C1 (the code violates the claim): with two 401s arriving while the first
refresh is still in flight, the second handler's `finally` clears the Auth
Lock on the queued-return path, so the lock is already `false` although the
refresh round trip has not completed; a third 401 then finds the lock free and
issues a second refresh call, so two refreshes are in flight at once. -/
theorem refresh_not_single_flight :
    (authRun
        [AuthEvent.arrive401 { url := some "/a" } (some refreshTokenCookie),
          AuthEvent.arrive401 { url := some "/b" } (some refreshTokenCookie)]).isApiRequestAuthLocked
        = false ∧
    (authRun
        [AuthEvent.arrive401 { url := some "/a" } (some refreshTokenCookie),
          AuthEvent.arrive401 { url := some "/b" } (some refreshTokenCookie)]).refreshInFlight
        = 1 ∧
    (authRun
        [AuthEvent.arrive401 { url := some "/a" } (some refreshTokenCookie),
          AuthEvent.arrive401 { url := some "/b" } (some refreshTokenCookie),
          AuthEvent.arrive401 { url := some "/c" } (some refreshTokenCookie)]).refreshCalls
        = 2 ∧
    (authRun
        [AuthEvent.arrive401 { url := some "/a" } (some refreshTokenCookie),
          AuthEvent.arrive401 { url := some "/b" } (some refreshTokenCookie),
          AuthEvent.arrive401 { url := some "/c" } (some refreshTokenCookie)]).refreshInFlight
        = 2 := by
  decide

/-- C6: whichever way the refresh sequence fails — the stored refresh
credential is missing (the `throw` before the refresh call), or the awaited
refresh round trip throws — the `catch` block clears the stored tokens exactly
once and forces exactly one page reload, independently of how many requests
sit in the queue (the state `s` is arbitrary), and the handler's promise
resolves with `undefined` rather than rejecting. -/
theorem refresh_failure_single_logout (s : AuthState) (config : RequestConfig) :
    (s.isApiRequestAuthLocked = false →
      (authStep s (AuthEvent.arrive401 config none)).1.reloads = s.reloads + 1 ∧
      (authStep s (AuthEvent.arrive401 config none)).1.tokenClears = s.tokenClears + 1 ∧
      (authStep s (AuthEvent.arrive401 config none)).2 =
        some AuthHandlerReturn.resolveUndefined) ∧
    (1 ≤ s.refreshInFlight →
      (authStep s (AuthEvent.refreshReturns RefreshOutcome.threw)).1.reloads = s.reloads + 1 ∧
      (authStep s (AuthEvent.refreshReturns RefreshOutcome.threw)).1.tokenClears
        = s.tokenClears + 1 ∧
      (authStep s (AuthEvent.refreshReturns RefreshOutcome.threw)).2 =
        some AuthHandlerReturn.resolveUndefined) := by
  constructor
  · intro hlock
    simp [authStep, hlock]
  · intro _
    simp [authStep]

/-- A client state with one refresh outstanding and two queued requests, for
the `refresh_failure_single_logout` witness. -/
def sampleRefreshingState : AuthState :=
  { isApiRequestAuthLocked := false,
    apiRequestMicrotaskQueueItem := [{ url := some "/b" }, { url := some "/c" }],
    pendingConfig := some { url := some "/a" }, refreshCalls := 1,
    refreshInFlight := 1, reloads := 0, tokenClears := 0, storedTokens := none,
    replayed := [], rearms := 0 }

/-- Witness for `refresh_failure_single_logout`: at a concrete state with two
queued requests, both the missing-credential path and the refresh-throw path
reload exactly once, clear the tokens exactly once, and resolve `undefined`. -/
theorem refresh_failure_single_logout_witness :
    (authStep sampleRefreshingState
        (AuthEvent.arrive401 { url := some "/d" } none)).1.reloads = 0 + 1 ∧
    (authStep sampleRefreshingState
        (AuthEvent.refreshReturns RefreshOutcome.threw)).1.reloads = 0 + 1 ∧
    (authStep sampleRefreshingState
        (AuthEvent.refreshReturns RefreshOutcome.threw)).1.tokenClears = 0 + 1 ∧
    (authStep sampleRefreshingState
        (AuthEvent.refreshReturns RefreshOutcome.threw)).2 =
      some AuthHandlerReturn.resolveUndefined := by
  have h := refresh_failure_single_logout sampleRefreshingState { url := some "/d" }
  exact ⟨(h.1 rfl).1, (h.2 (by decide)).1, (h.2 (by decide)).2.1,
    (h.2 (by decide)).2.2⟩

/-! ## Interceptor management of the authenticated client

The transport's request-interceptor registry (axios `InterceptorManager`) is
an external collaborator: `use` registers a handler and returns its id,
`eject(id)` removes that one handler, `clear()` removes every handler. -/

/-- A registered request interceptor handler: the auth one stamps
`Authorization: Bearer <token>`, anything else is tagged opaquely. -/
inductive RequestHandler where
  | authBearer (accessToken : String)
  | other (tag : Nat)
  deriving DecidableEq, Repr

/-- The transport instance's request-interceptor registry. -/
structure InterceptorRegistry where
  handlers : List (Nat × RequestHandler)
  nextId : Nat
  deriving DecidableEq, Repr

/-- `interceptors.request.use`: append the handler, hand back its id. -/
def InterceptorRegistry.use (reg : InterceptorRegistry) (h : RequestHandler) :
    InterceptorRegistry × Nat :=
  ({ handlers := reg.handlers ++ [(reg.nextId, h)], nextId := reg.nextId + 1 },
    reg.nextId)

/-- `interceptors.request.eject(id)`: drop the handler with that id. -/
def InterceptorRegistry.eject (reg : InterceptorRegistry) (id : Nat) :
    InterceptorRegistry :=
  { handlers := reg.handlers.filter (fun p => p.1 ≠ id), nextId := reg.nextId }

/-- `interceptors.request.clear()`: drop every registered handler. -/
def InterceptorRegistry.clear (reg : InterceptorRegistry) : InterceptorRegistry :=
  { handlers := [], nextId := reg.nextId }

/-- The slice of `CreateAxiosService` state that interceptor management
touches: the transport's registry, the remembered auth interceptor id, and a
count of `removeTokenFromCookie()` side effects. -/
structure AuthInterceptorState where
  registry : InterceptorRegistry
  authRequestInterceptorId : Option Nat
  tokenRemovals : Nat
  deriving DecidableEq, Repr

/-- `CreateAxiosService.setAuthRequestInterceptor` (lines 211–224): when an
auth interceptor id is remembered, it calls `interceptors.request.clear()` —
wiping every request interceptor on the instance, not only the auth one — and
then registers the fresh bearer-token interceptor. -/
def setAuthRequestInterceptor (accessToken : String) (s : AuthInterceptorState) :
    AuthInterceptorState :=
  let reg1 := if s.authRequestInterceptorId ≠ none then s.registry.clear else s.registry
  let used := reg1.use (RequestHandler.authBearer accessToken)
  { s with
      registry := used.1
      authRequestInterceptorId := some used.2 }

/-- `CreateAxiosService.removeAuthRequestInterceptor` (lines 227–234): with no
remembered id it returns immediately; otherwise it ejects that handler, nulls
the id, and clears the stored tokens. -/
def removeAuthRequestInterceptor (s : AuthInterceptorState) : AuthInterceptorState :=
  match s.authRequestInterceptorId with
  | none => s
  | some id =>
    { s with
        registry := s.registry.eject id
        authRequestInterceptorId := none
        tokenRemovals := s.tokenRemovals + 1 }

/-! ## Claims C8, C10 -/

/-- C8: `removeAuthRequestInterceptor` is idempotent — after one call the
remembered id is `none`, so a second call takes the early return and leaves
the whole state untouched: no further ejection and no further token-clearing
side effect beyond the first call's. -/
theorem remove_auth_interceptor_idempotent (s : AuthInterceptorState) :
    removeAuthRequestInterceptor (removeAuthRequestInterceptor s)
      = removeAuthRequestInterceptor s ∧
    (removeAuthRequestInterceptor s).authRequestInterceptorId = none := by
  cases h : s.authRequestInterceptorId with
  | none => simp [removeAuthRequestInterceptor, h]
  | some id => simp [removeAuthRequestInterceptor, h]

/-- C10: re-arming the auth interceptor while one is already installed clears
the *entire* request-interceptor registry before installing the new bearer
handler, so afterwards the registry holds exactly the fresh bearer interceptor
and any other interceptor previously installed on the instance is gone. -/
theorem set_auth_interceptor_clears_all (s : AuthInterceptorState) (j : Nat)
    (accessToken : String) (h : s.authRequestInterceptorId = some j) :
    (setAuthRequestInterceptor accessToken s).registry.handlers
      = [(s.registry.nextId, RequestHandler.authBearer accessToken)] ∧
    ∀ p ∈ s.registry.handlers, p.2 ≠ RequestHandler.authBearer accessToken →
      p ∉ (setAuthRequestInterceptor accessToken s).registry.handlers := by
  constructor
  · simp [setAuthRequestInterceptor, h, InterceptorRegistry.clear,
      InterceptorRegistry.use]
  · intro p _ hp
    simp only [setAuthRequestInterceptor, h, ne_eq, reduceCtorEq,
      not_false_eq_true, if_true, InterceptorRegistry.clear,
      InterceptorRegistry.use, List.nil_append, List.mem_singleton]
    intro hmem
    exact hp (congrArg Prod.snd hmem)

/-- A client with the auth interceptor installed at id 0 and an unrelated
request interceptor at id 1. -/
def sampleInterceptorState : AuthInterceptorState :=
  { registry :=
      { handlers := [(0, RequestHandler.authBearer "old"), (1, RequestHandler.other 7)],
        nextId := 2 },
    authRequestInterceptorId := some 0,
    tokenRemovals := 0 }

/-- Witness for `set_auth_interceptor_clears_all`: re-arming with a new token
leaves only the fresh bearer interceptor; the unrelated interceptor `other 7`
is removed as a side effect. -/
theorem set_auth_interceptor_clears_all_witness :
    (setAuthRequestInterceptor "new" sampleInterceptorState).registry.handlers
      = [(2, RequestHandler.authBearer "new")] ∧
    (1, RequestHandler.other 7)
      ∉ (setAuthRequestInterceptor "new" sampleInterceptorState).registry.handlers := by
  have h := set_auth_interceptor_clears_all sampleInterceptorState 0 "new" rfl
  exact ⟨h.1, h.2 (1, RequestHandler.other 7) (by simp [sampleInterceptorState])
    (by decide)⟩

/-! ## The administrative client (`AdminCreateAxiosService`) -/

/-- `path.SIGNIN` of `AdminStore`. -/
def SIGNIN : String := "/signin"

/-- `redirectTime` of `AdminStore`, in milliseconds. -/
def redirectTime : Nat := 5000

/-- The localized countdown notification emitted when the redirect is
scheduled (`seconds = redirectTime / 1000`). -/
def redirectCountdownMessage : String :=
  "인증이 만료되었습니다. 다시 로그인해 주세요.\n" ++ toString (redirectTime / 1000)
    ++ "초 후 로그인 페이지로 자동 이동합니다."

/-- A toast notification dispatched through the Notification Emitter. -/
inductive Notification where
  | success (message : String)
  | error (message : String)
  deriving DecidableEq, Repr

/-- State of one administrative client instance.  Timer handles are modelled
as fresh numeric ids: `pendingTimers` holds the `(id, delay)` pairs armed by
`setTimeout` and not yet fired or cleared, `redirectTimeout` the handle stored
in the `redirectTimeout` field, and `armedCount`/`clearedCount` count the
`setTimeout`/`clearTimeout` calls.  `sessionUnauthorizedFlag` is the persisted
`sessionStorage` UNAUTHORIZED flag; `errorMessage`/`successMessage` the
current `messageOption`. -/
structure AdminState where
  isRedirectingBy401Unauthorized : Bool
  sessionUnauthorizedFlag : Bool
  redirectTimeout : Option Nat
  pendingTimers : List (Nat × Nat)
  nextTimerId : Nat
  armedCount : Nat
  clearedCount : Nat
  errorMessage : Option String
  successMessage : Option String
  deriving DecidableEq, Repr

/-- A freshly constructed admin client: `isRedirectingBy401Unauthorized` is
initialized from the persisted flag (the `AdminStore` constructor). -/
def mkAdminState (persisted : Bool) : AdminState :=
  { isRedirectingBy401Unauthorized := persisted,
    sessionUnauthorizedFlag := persisted, redirectTimeout := none,
    pendingTimers := [], nextTimerId := 0, armedCount := 0, clearedCount := 0,
    errorMessage := none, successMessage := none }

/-- How the admin response error interceptor settles the caller's promise. -/
inductive AdminErrorResult where
  /-- `promiseReject(error)` / `Promise.reject(error)` with the original error -/
  | rejectOriginal
  /-- a resolution or a different rejection (no source path produces this) -/
  | somethingElse
  deriving DecidableEq, Repr

/-- The notifications the registered per-call `errorMessage` produces (a falsy
empty string emits nothing). -/
def messageNotes (errorMessage : Option String) : List Notification :=
  match errorMessage with
  | some m => if m = "" then [] else [Notification.error m]
  | none => []

/-- `AdminCreateAxiosService.verifySigninConfig`: only the sign-in request
itself. -/
def verifySigninConfig (config : RequestConfig) : Bool :=
  config.url = some SIGNIN

/-- Result of the admin request interceptor's fulfilled handler. -/
inductive RequestInterceptResult where
  /-- the config is passed through to the transport -/
  | pass (config : RequestConfig)
  /-- `Promise.reject('Redirecting by 401 Unauthorized')` before any network
  call is made -/
  | reject (reason : String)
  deriving DecidableEq, Repr

/-- The fulfilled handler installed by
`AdminCreateAxiosService.initAdminRequestInterceptor` (lines 310–326), as a
function of the instance's redirect flag and the outgoing config. -/
def adminRequestOnFulfilled (isRedirectingBy401Unauthorized : Bool)
    (config : RequestConfig) : RequestInterceptResult :=
  if isRedirectingBy401Unauthorized then
    if verifySigninConfig config then RequestInterceptResult.pass config
    else RequestInterceptResult.reject "Redirecting by 401 Unauthorized"
  else RequestInterceptResult.pass config

/-- The body of the `!isRedirectingBy401Unauthorized` 401 branch (lines
380–401) as it acts on the instance state: clear the previously stored
redirect timer if the handle is set, persist and set the unauthorized-redirect
flag, and arm the single new redirect timer over `redirectTime`, storing its
handle. -/
def scheduleRedirect (s : AdminState) : AdminState :=
  let s1 :=
    match s.redirectTimeout with
    | some t =>
      { s with
          pendingTimers := s.pendingTimers.filter (fun td => td.1 ≠ t)
          clearedCount := s.clearedCount + 1 }
    | none => s
  let s2 :=
    { s1 with
        sessionUnauthorizedFlag := true
        isRedirectingBy401Unauthorized := true }
  { s2 with
      redirectTimeout := some s2.nextTimerId
      pendingTimers := s2.pendingTimers ++ [(s2.nextTimerId, redirectTime)]
      nextTimerId := s2.nextTimerId + 1
      armedCount := s2.armedCount + 1 }

/-- The rejected handler installed by
`AdminCreateAxiosService.initAdminResponseInterceptor` (lines 339–403), one
synchronous run on the event loop: takes the instance state, the error and the
current `window.location.pathname`; returns the new state, the emitted
notifications in order, and how the caller's promise settles.  Branches, in
source order: falsy status; console logging (stateless, not modelled);
per-call error message; request-originated; server-originated; unexpected;
401 on the sign-in page; 401 while not yet redirecting (clear any stored
timer, persist the flag, emit the countdown, arm the redirect timer); 401
while already redirecting (fall through to the final rejection). -/
def adminOnError (s : AdminState) (error : AxiosError) (pathname : String) :
    AdminState × List Notification × AdminErrorResult :=
  let statusCode := error.status
  if statusCode = none ∨ statusCode = some 0 then
    (s, [], AdminErrorResult.rejectOriginal)
  else
    let notes := messageNotes s.errorMessage
    if isErrorFromRequest error then
      (s, notes ++ [Notification.error "Request Error"],
        AdminErrorResult.rejectOriginal)
    else if isErrorFromServer statusCode then
      (s, notes ++ [Notification.error "Internal Server Error"],
        AdminErrorResult.rejectOriginal)
    else if isUnexpectedError statusCode then
      (s, notes ++ [Notification.error error.message],
        AdminErrorResult.rejectOriginal)
    else if pathname = SIGNIN then
      ({ s with sessionUnauthorizedFlag := true }, notes,
        AdminErrorResult.rejectOriginal)
    else if s.isRedirectingBy401Unauthorized then
      (s, notes, AdminErrorResult.rejectOriginal)
    else
      (scheduleRedirect s, notes ++ [Notification.error redirectCountdownMessage],
        AdminErrorResult.rejectOriginal)

/-- The scheduled redirect callback (lines 392–400) firing for timer `t`:
the timer leaves the pending set; if the user has navigated to the sign-in
page in the meantime the callback clears its own stored handle and performs no
navigation, otherwise it navigates (`window.location.href`) to the sign-in
path, returned as the second component. -/
def adminTimerFire (s : AdminState) (t : Nat) (pathname : String) :
    AdminState × Option String :=
  let s1 := { s with pendingTimers := s.pendingTimers.filter (fun td => td.1 ≠ t) }
  if pathname = SIGNIN then
    match s1.redirectTimeout with
    | some u =>
      ({ s1 with
           pendingTimers := s1.pendingTimers.filter (fun td => td.1 ≠ u)
           clearedCount := s1.clearedCount + 1 }, none)
    | none => (s1, none)
  else (s1, some SIGNIN)

/-- At most one redirect timer is ever pending, and any pending timer is the
one whose handle is stored in `redirectTimeout`. -/
def AdminTimerInv (s : AdminState) : Prop :=
  s.pendingTimers.length ≤ 1 ∧
    ∀ td ∈ s.pendingTimers, s.redirectTimeout = some td.1

instance (s : AdminState) : Decidable (AdminTimerInv s) := by
  unfold AdminTimerInv
  infer_instance

/-! ## Helper lemmas for the administrative client -/

/-- Under the timer invariant, a set `redirectTimeout` handle refers to the
only possibly-pending timer, so clearing it empties the pending set. -/
theorem pending_filter_of_inv (s : AdminState) (t : Nat)
    (hinv : AdminTimerInv s) (ht : s.redirectTimeout = some t) :
    s.pendingTimers.filter (fun td => td.1 ≠ t) = [] := by
  obtain ⟨hlen, hall⟩ := hinv
  cases hp : s.pendingTimers with
  | nil => rfl
  | cons a l =>
    have ha := hall a (by rw [hp]; exact List.mem_cons_self a l)
    rw [ht] at ha
    have hat : a.1 = t := by
      injection ha with h
      exact h.symm
    have hl : l = [] := by
      rw [hp] at hlen
      simp only [List.length_cons] at hlen
      exact List.eq_nil_of_length_eq_zero (by omega)
    subst hl
    simp [hat]

/-- Under the timer invariant, an unset `redirectTimeout` handle means no
timer is pending. -/
theorem pending_nil_of_none (s : AdminState)
    (hinv : AdminTimerInv s) (hn : s.redirectTimeout = none) :
    s.pendingTimers = [] := by
  obtain ⟨-, hall⟩ := hinv
  cases hp : s.pendingTimers with
  | nil => rfl
  | cons a l =>
    have ha := hall a (by rw [hp]; exact List.mem_cons_self a l)
    rw [hn] at ha
    cases ha

/-- Under the timer invariant, `scheduleRedirect` leaves exactly the freshly
armed timer pending. -/
theorem scheduleRedirect_pendingTimers (s : AdminState) (hinv : AdminTimerInv s) :
    (scheduleRedirect s).pendingTimers = [(s.nextTimerId, redirectTime)] := by
  unfold scheduleRedirect
  cases ht : s.redirectTimeout with
  | none =>
    have h0 := pending_nil_of_none s hinv ht
    simp only [ht]
    simp [h0]
  | some t =>
    have h0 := pending_filter_of_inv s t hinv ht
    simp only [ht]
    simp only [h0]
    simp

/-- Field-level description of `scheduleRedirect` that does not depend on the
timer invariant. -/
theorem scheduleRedirect_fields (s : AdminState) :
    (scheduleRedirect s).redirectTimeout = some s.nextTimerId ∧
    (scheduleRedirect s).isRedirectingBy401Unauthorized = true ∧
    (scheduleRedirect s).sessionUnauthorizedFlag = true ∧
    (scheduleRedirect s).armedCount = s.armedCount + 1 ∧
    (scheduleRedirect s).nextTimerId = s.nextTimerId + 1 := by
  unfold scheduleRedirect
  cases ht : s.redirectTimeout <;> simp

/-- Every branch of the admin response error handler settles the caller's
promise by rejecting with the original error. -/
theorem adminOnError_result (s : AdminState) (e : AxiosError) (p : String) :
    (adminOnError s e p).2.2 = AdminErrorResult.rejectOriginal := by
  unfold adminOnError
  dsimp only
  repeat' split
  all_goals rfl

/-- Reduction of the admin error handler on a 401 carrying a config, away
from the sign-in page: only the redirect flag decides between scheduling the
redirect and falling through, and either way the original error is rejected. -/
theorem adminOnError_401 (s : AdminState) (e : AxiosError) (r : AxiosResponse)
    (c : RequestConfig) (p : String) (hr : e.response = some r)
    (hst : r.status = 401) (hc : e.config = some c) (hp : p ≠ SIGNIN) :
    adminOnError s e p =
      if s.isRedirectingBy401Unauthorized then
        (s, messageNotes s.errorMessage, AdminErrorResult.rejectOriginal)
      else
        (scheduleRedirect s,
          messageNotes s.errorMessage ++ [Notification.error redirectCountdownMessage],
          AdminErrorResult.rejectOriginal) := by
  have hstatus : e.status = some 401 := by simp [AxiosError.status, hr, hst]
  have h1 : isErrorFromRequest e = false := by
    simp [isErrorFromRequest, hc, hr, hst]
  have h2 : isErrorFromServer (some 401) = false := rfl
  have h3 : isUnexpectedError (some 401) = false := rfl
  unfold adminOnError
  simp only [hstatus, h1, h2, h3, hp]
  simp

/-! ## Claims C4, C5, C7 -/

/-- A sample request config for the admin-client scenarios. -/
def sampleConfig : RequestConfig := { url := some "/orders" }

/-- A sample 401 response to `sampleConfig`. -/
def sampleResponse401 : AxiosResponse := { status := 401, config := some sampleConfig }

/-- A sample 401 error as delivered to the response interceptors. -/
def sample401Error : AxiosError :=
  { config := some sampleConfig, response := some sampleResponse401,
    message := "Request failed with status code 401" }

/-- C4 (counterexample): from a fresh admin client, a first 401 away from the
sign-in page arms timer 0; a second identical 401 arriving before the timer
fires leaves the state — timer handle, pending timer, armed and cleared
counters — completely unchanged.  It neither cancels the prior timer
(`clearedCount` stays 0) nor reschedules a new one (`armedCount` stays 1),
contradicting the claim that it "cancels the prior timer and reschedules a
new one". -/
theorem admin_redirect_second_401_ignored :
    (adminOnError (adminOnError (mkAdminState false) sample401Error "/dashboard").1
        sample401Error "/dashboard").1
      = (adminOnError (mkAdminState false) sample401Error "/dashboard").1 ∧
    (adminOnError (mkAdminState false) sample401Error "/dashboard").1.pendingTimers
      = [(0, redirectTime)] ∧
    (adminOnError (mkAdminState false) sample401Error "/dashboard").1.armedCount = 1 ∧
    (adminOnError (adminOnError (mkAdminState false) sample401Error "/dashboard").1
        sample401Error "/dashboard").1.armedCount = 1 ∧
    (adminOnError (adminOnError (mkAdminState false) sample401Error "/dashboard").1
        sample401Error "/dashboard").1.clearedCount = 0 := by
  decide

/-- C4 (amended): away from the sign-in page, under the timer invariant,
(a) a 401 with the redirect state clear clears any previously stored redirect
timer and leaves exactly one pending timer — the freshly armed one, with delay
`redirectTime = 5000` ms and its handle stored — marks the redirect state
(in-memory and persisted), emits the countdown notification, and the armed
timer navigates to the sign-in path when it fires away from the sign-in page;
(b) a 401 with the redirect state already set leaves the state unchanged — it
neither cancels nor reschedules the timer, so the previously armed timer
remains the single pending one.  In both cases at most one redirect timer is
pending afterwards. -/
theorem admin_redirect_single_timer (s : AdminState) (e : AxiosError)
    (r : AxiosResponse) (c : RequestConfig) (p : String)
    (hr : e.response = some r) (hst : r.status = 401) (hc : e.config = some c)
    (hp : p ≠ SIGNIN) (hinv : AdminTimerInv s) :
    (s.isRedirectingBy401Unauthorized = false →
      (adminOnError s e p).1.pendingTimers = [(s.nextTimerId, redirectTime)] ∧
      redirectTime = 5000 ∧
      (adminOnError s e p).1.redirectTimeout = some s.nextTimerId ∧
      (adminOnError s e p).1.isRedirectingBy401Unauthorized = true ∧
      (adminOnError s e p).1.sessionUnauthorizedFlag = true ∧
      (adminOnError s e p).1.armedCount = s.armedCount + 1 ∧
      Notification.error redirectCountdownMessage ∈ (adminOnError s e p).2.1 ∧
      AdminTimerInv (adminOnError s e p).1 ∧
      (adminTimerFire (adminOnError s e p).1 s.nextTimerId p).2 = some SIGNIN) ∧
    (s.isRedirectingBy401Unauthorized = true → (adminOnError s e p).1 = s) := by
  have he := adminOnError_401 s e r c p hr hst hc hp
  constructor
  · intro hred
    rw [he]
    simp only [hred, Bool.false_eq_true, if_false]
    obtain ⟨hrt, hflag, hsess, harm, -⟩ := scheduleRedirect_fields s
    have hpend := scheduleRedirect_pendingTimers s hinv
    refine ⟨hpend, rfl, hrt, hflag, hsess, harm, ?_, ?_, ?_⟩
    · simp
    · refine ⟨by rw [hpend]; simp, ?_⟩
      intro td htd
      rw [hpend] at htd
      simp only [List.mem_singleton] at htd
      subst htd
      exact hrt
    · simp [adminTimerFire, hp]
  · intro hred
    rw [he]
    simp [hred]

/-- Witness for `admin_redirect_single_timer`: on a fresh client the first
401 arms timer 0 with the 5000 ms delay and stores its handle; applying the
theorem again at the resulting (now redirecting) state shows the second 401
leaves the state unchanged. -/
theorem admin_redirect_single_timer_witness :
    (adminOnError (mkAdminState false) sample401Error "/dashboard").1.pendingTimers
      = [((mkAdminState false).nextTimerId, redirectTime)] ∧
    (adminOnError (mkAdminState false) sample401Error "/dashboard").1.redirectTimeout
      = some (mkAdminState false).nextTimerId ∧
    (adminOnError (adminOnError (mkAdminState false) sample401Error "/dashboard").1
        sample401Error "/dashboard").1
      = (adminOnError (mkAdminState false) sample401Error "/dashboard").1 := by
  have h1 := admin_redirect_single_timer (mkAdminState false) sample401Error
    sampleResponse401 sampleConfig "/dashboard" rfl rfl rfl (by decide) (by decide)
  have h2 := admin_redirect_single_timer
    (adminOnError (mkAdminState false) sample401Error "/dashboard").1 sample401Error
    sampleResponse401 sampleConfig "/dashboard" rfl rfl rfl (by decide) (by decide)
  exact ⟨(h1.1 rfl).1, (h1.1 rfl).2.2.1, h2.2 (by decide)⟩

/-- C5: every 401 handled by the admin response interceptor — on the sign-in
page, already redirecting, or newly scheduling the redirect — settles the
caller's promise by rejecting with the original error; no 401 is ever turned
into a success. -/
theorem admin_401_always_rejects (s : AdminState) (e : AxiosError)
    (r : AxiosResponse) (p : String) (hr : e.response = some r)
    (hst : r.status = 401) :
    (adminOnError s e p).2.2 = AdminErrorResult.rejectOriginal :=
  adminOnError_result s e p

/-- Witness for `admin_401_always_rejects` on the three 401 paths: newly
scheduling (fresh state, away from sign-in), already redirecting, and on the
sign-in page. -/
theorem admin_401_always_rejects_witness :
    (adminOnError (mkAdminState false) sample401Error "/dashboard").2.2
      = AdminErrorResult.rejectOriginal ∧
    (adminOnError (mkAdminState true) sample401Error "/dashboard").2.2
      = AdminErrorResult.rejectOriginal ∧
    (adminOnError (mkAdminState false) sample401Error SIGNIN).2.2
      = AdminErrorResult.rejectOriginal :=
  ⟨admin_401_always_rejects (mkAdminState false) sample401Error sampleResponse401
      "/dashboard" rfl rfl,
    admin_401_always_rejects (mkAdminState true) sample401Error sampleResponse401
      "/dashboard" rfl rfl,
    admin_401_always_rejects (mkAdminState false) sample401Error sampleResponse401
      SIGNIN rfl rfl⟩

/-- C7: while the unauthorized-redirect state is set, the admin request
interceptor passes a request through (unchanged) exactly when its URL is the
sign-in endpoint and rejects any other request with the descriptive reason
before any network call; with the state clear every request passes through
unchanged. -/
theorem admin_request_gate (b : Bool) (config : RequestConfig) :
    (adminRequestOnFulfilled b config = RequestInterceptResult.pass config ↔
      b = false ∨ config.url = some SIGNIN) ∧
    (b = true → config.url ≠ some SIGNIN →
      adminRequestOnFulfilled b config
        = RequestInterceptResult.reject "Redirecting by 401 Unauthorized") := by
  constructor
  · cases b with
    | false => simp [adminRequestOnFulfilled]
    | true =>
      by_cases h : config.url = some SIGNIN <;>
        simp [adminRequestOnFulfilled, verifySigninConfig, h]
  · intro hb h
    subst hb
    simp [adminRequestOnFulfilled, verifySigninConfig, h]

/-- Witness for `admin_request_gate`: while redirecting, a non-sign-in request
is rejected with the descriptive reason. -/
theorem admin_request_gate_witness :
    adminRequestOnFulfilled true sampleConfig
      = RequestInterceptResult.reject "Redirecting by 401 Unauthorized" :=
  (admin_request_gate true sampleConfig).2 rfl (by decide)
